import Mathlib

/-!
Shallow embedding of the `DX` feed-client class (src/src/DX/DX.py) and
verification of its specification.

Modelling conventions:
* JSON values are the inductive `Json`; Python dict/list/str/int/bool/None
  map to `Json.obj`/`Json.arr`/`Json.str`/`Json.num`/`Json.bool`/`Json.null`.
  (Arrays and objects are mutual inductives so every function on them is
  structurally recursive and computable; `Json.mkArr`/`Json.mkObj` build
  them from ordinary lists.)
* The HTTP library (`requests`) is an external collaborator: a call is a pure
  function `Transport : HttpRequest → Except String (Nat × Json)`, where
  `Except.error msg` models a network-level exception carrying `msg` and
  `Except.ok (status, body)` models a response with its decoded JSON body.
  `Response.raise_for_status` raises exactly when `400 ≤ status < 600`.
* Wall-clock time is an explicit parameter: an instant is the number of
  microseconds since 1970-01-01T00:00:00Z (proleptic Gregorian calendar,
  as Python's `datetime` uses).
* Console output and the list of issued HTTP requests are returned
  explicitly in `CallResult`, together with the post-call object state and
  the Python return value.
-/

mutual

/-- JSON-like Python values (the values flowing through the client). -/
inductive Json where
  | null : Json
  | bool : Bool → Json
  | num : Int → Json
  | str : String → Json
  | arr : JsonArr → Json
  | obj : JsonObj → Json
  deriving DecidableEq

/-- A JSON array (Python list). -/
inductive JsonArr where
  | nil : JsonArr
  | cons : Json → JsonArr → JsonArr
  deriving DecidableEq

/-- A JSON object (Python dict): key/value entries in insertion order. -/
inductive JsonObj where
  | nil : JsonObj
  | cons : String → Json → JsonObj → JsonObj
  deriving DecidableEq

end

/-- Build a `Json.arr` from a list of elements. -/
def Json.mkArr (xs : List Json) : Json :=
  Json.arr (xs.foldr JsonArr.cons JsonArr.nil)

/-- Build a `Json.obj` from a list of key/value pairs. -/
def Json.mkObj (ps : List (String × Json)) : Json :=
  Json.obj (ps.foldr (fun p t => JsonObj.cons p.1 p.2 t) JsonObj.nil)

/-- Python truthiness (`if data:`) on JSON-like values: `None`, `False`,
`0`, `""`, `[]` and `{}` are falsy, everything else truthy. -/
def pyTruthy : Json → Bool
  | Json.null => false
  | Json.bool b => b
  | Json.num i => i != 0
  | Json.str s => s != ""
  | Json.arr JsonArr.nil => false
  | Json.arr (JsonArr.cons _ _) => true
  | Json.obj JsonObj.nil => false
  | Json.obj (JsonObj.cons _ _ _) => true

/-- Lowercase hex digit of `n % 16`, as Python's `\uXXXX` escapes use. -/
def hexDigit (n : Nat) : Char := Nat.digitChar (n % 16)

/-- `\uXXXX` escape for a code unit below `0x10000`. -/
def uEsc4 (n : Nat) : List Char :=
  ['\\', 'u', hexDigit (n / 4096), hexDigit (n / 256), hexDigit (n / 16), hexDigit n]

/-- `ensure_ascii` escape of a non-printable or non-ASCII scalar value,
using a surrogate pair above `0xFFFF` as Python's `json.dumps` does. -/
def uEsc (n : Nat) : List Char :=
  if n ≤ 65535 then uEsc4 n
  else uEsc4 (55296 + (n - 65536) / 1024) ++ uEsc4 (56320 + (n - 65536) % 1024)

/-- Escaping of one character inside a JSON string literal
(Python `json.dumps` default, `ensure_ascii=True`). -/
def jsonEscapeChar (c : Char) : List Char :=
  if c = '"' then ['\\', '"']
  else if c = '\\' then ['\\', '\\']
  else if c = '\n' then ['\\', 'n']
  else if c = '\t' then ['\\', 't']
  else if c = '\r' then ['\\', 'r']
  else if c.toNat = 8 then ['\\', 'b']
  else if c.toNat = 12 then ['\\', 'f']
  else if c.toNat < 32 || c.toNat > 126 then uEsc c.toNat
  else [c]

/-- A JSON string literal: quotes around the escaped characters. -/
def jsonQuote (s : String) : List Char :=
  '"' :: (s.data.map jsonEscapeChar).flatten ++ ['"']

/-- `indent` spaces. -/
def indentChars (n : Nat) : List Char := List.replicate n ' '

mutual

/-- `json.dumps(·, indent=4)` at nesting level `lvl`: item separator `","`,
key separator `": "`, each element on its own line indented by `4 * level`
spaces, closing bracket indented by the enclosing level. -/
def jsonDumpChars : Nat → Json → List Char
  | _, Json.null => ['n', 'u', 'l', 'l']
  | _, Json.bool true => ['t', 'r', 'u', 'e']
  | _, Json.bool false => ['f', 'a', 'l', 's', 'e']
  | _, Json.num i => (toString i).data
  | _, Json.str s => jsonQuote s
  | _, Json.arr JsonArr.nil => ['[', ']']
  | lvl, Json.arr (JsonArr.cons x xs) =>
      ['[', '\n'] ++ jsonItems (lvl + 1) (JsonArr.cons x xs)
        ++ '\n' :: indentChars (4 * lvl) ++ [']']
  | _, Json.obj JsonObj.nil => ['\x7b', '\x7d']
  | lvl, Json.obj (JsonObj.cons k v ps) =>
      ['\x7b', '\n'] ++ jsonFields (lvl + 1) (JsonObj.cons k v ps)
        ++ '\n' :: indentChars (4 * lvl) ++ ['\x7d']

/-- The comma-and-newline separated items of a JSON array. -/
def jsonItems : Nat → JsonArr → List Char
  | _, JsonArr.nil => []
  | lvl, JsonArr.cons x JsonArr.nil => indentChars (4 * lvl) ++ jsonDumpChars lvl x
  | lvl, JsonArr.cons x (JsonArr.cons y ys) =>
      indentChars (4 * lvl) ++ jsonDumpChars lvl x ++ [',', '\n']
        ++ jsonItems lvl (JsonArr.cons y ys)

/-- The comma-and-newline separated entries of a JSON object. -/
def jsonFields : Nat → JsonObj → List Char
  | _, JsonObj.nil => []
  | lvl, JsonObj.cons k v JsonObj.nil =>
      indentChars (4 * lvl) ++ jsonQuote k ++ ':' :: ' ' :: jsonDumpChars lvl v
  | lvl, JsonObj.cons k v (JsonObj.cons k2 v2 qs) =>
      indentChars (4 * lvl) ++ jsonQuote k ++ ':' :: ' ' :: jsonDumpChars lvl v
        ++ [',', '\n'] ++ jsonFields lvl (JsonObj.cons k2 v2 qs)

end

/-- `json.dumps(data, indent=4)`. -/
def pyJsonDumps4 (j : Json) : String := String.mk (jsonDumpChars 0 j)

/-- `DX.display_data(data)`: the lines it prints to the console. The method
returns `None` and touches no instance state, so the console lines are its
whole effect.

```python
if data:
    print(json.dumps(data, indent=4))
else:
    print("No data to display.")
``` -/
def display_data (data : Json) : List String :=
  if pyTruthy data then [pyJsonDumps4 data] else ["No data to display."]

/-! ### Wall-clock time and `strftime`

An instant is `Nat` microseconds since the Unix epoch. The calendar
conversion is the standard civil-from-days algorithm over the proleptic
Gregorian calendar, the same calendar `datetime` computes with. -/

/-- Days since 1970-01-01 of an instant. -/
def epochDays (t : Nat) : Nat := t / 86400000000

/-- Microseconds into the current day. -/
def timeOfDay (t : Nat) : Nat := t % 86400000000

/-- Civil-from-days: `(year, month, day)` of a day count since 1970-01-01
(proleptic Gregorian). -/
def civilOfDays (z : Nat) : Nat × Nat × Nat :=
  let zd := z + 719468
  let era := zd / 146097
  let doe := zd % 146097
  let yoe := (doe - doe / 1460 + doe / 36524 - doe / 146096) / 365
  let y := yoe + era * 400
  let doy := doe - (365 * yoe + yoe / 4 - yoe / 100)
  let mp := (5 * doy + 2) / 153
  let d := doy - (153 * mp + 2) / 5 + 1
  let m := if mp < 10 then mp + 3 else mp - 9
  (if m ≤ 2 then y + 1 else y, m, d)

/-- Calendar year of an instant. -/
def yearOf (t : Nat) : Nat := (civilOfDays (epochDays t)).1

/-- Calendar month (1–12) of an instant. -/
def monthOf (t : Nat) : Nat := (civilOfDays (epochDays t)).2.1

/-- Day of month (1–31) of an instant. -/
def dayOf (t : Nat) : Nat := (civilOfDays (epochDays t)).2.2

/-- Hour (0–23) of an instant. -/
def hourOf (t : Nat) : Nat := timeOfDay t / 3600000000

/-- Minute (0–59) of an instant. -/
def minuteOf (t : Nat) : Nat := timeOfDay t / 60000000 % 60

/-- Second (0–59) of an instant. -/
def secondOf (t : Nat) : Nat := timeOfDay t / 1000000 % 60

/-- Microsecond (0–999999) of an instant, `datetime.microsecond`. -/
def microOf (t : Nat) : Nat := t % 1000000

/-- Two zero-padded decimal digits (`%m`, `%d`, `%H`, `%M`, `%S`). -/
def pad2 (n : Nat) : List Char :=
  [Nat.digitChar (n / 10 % 10), Nat.digitChar (n % 10)]

/-- Three zero-padded decimal digits (milliseconds). -/
def pad3 (n : Nat) : List Char :=
  [Nat.digitChar (n / 100 % 10), Nat.digitChar (n / 10 % 10), Nat.digitChar (n % 10)]

/-- Four zero-padded decimal digits (`%Y` for years 1–9999). -/
def pad4 (n : Nat) : List Char :=
  [Nat.digitChar (n / 1000 % 10), Nat.digitChar (n / 100 % 10),
   Nat.digitChar (n / 10 % 10), Nat.digitChar (n % 10)]

/-- Six zero-padded decimal digits (`%f`, microseconds). -/
def pad6 (n : Nat) : List Char :=
  [Nat.digitChar (n / 100000 % 10), Nat.digitChar (n / 10000 % 10),
   Nat.digitChar (n / 1000 % 10), Nat.digitChar (n / 100 % 10),
   Nat.digitChar (n / 10 % 10), Nat.digitChar (n % 10)]

/-- The `"%Y-%m-%dT%H:%M:%S."` part of the format string. -/
def strftimeHead (t : Nat) : List Char :=
  pad4 (yearOf t) ++ ['-'] ++ pad2 (monthOf t) ++ ['-'] ++ pad2 (dayOf t)
    ++ ['T'] ++ pad2 (hourOf t) ++ [':'] ++ pad2 (minuteOf t)
    ++ [':'] ++ pad2 (secondOf t) ++ ['.']

/-- `strftime("%Y-%m-%dT%H:%M:%S.%f")` of an instant. -/
def strftimeFull (t : Nat) : List Char := strftimeHead t ++ pad6 (microOf t)

/-! ### The `DX` class -/

/-- The request header precomputed in `DX.__init__`. -/
structure Header where
  accept : String
  x_api_key : String
  content_type : String
  deriving DecidableEq

/-- HTTP methods the client uses. -/
inductive HttpMethod where
  | post : HttpMethod
  | get : HttpMethod
  deriving DecidableEq

/-- One outbound HTTP request as handed to the `requests` library. -/
structure HttpRequest where
  method : HttpMethod
  url : String
  header : Header
  body : Option Json
  deriving DecidableEq

/-- The HTTP library: `Except.error msg` is a network-level exception
(`requests.exceptions.ConnectionError` etc.), `Except.ok (status, body)` a
response with status code and decoded JSON body. -/
def Transport : Type := HttpRequest → Except String (Nat × Json)

/-- The message of the `requests.exceptions.HTTPError` that
`raise_for_status` raises for a 4xx/5xx response (modelled shape). -/
def httpStatusErrDesc (status : Nat) (url : String) : String :=
  toString status ++ " Error for url: " ++ url

/-- The object state of a `DX` instance: the configuration stored by
`__init__` plus every per-call attribute `post`/`get` assign on `self`
(absent until first assigned). `version` and `delta` (minutes) are
modelled as integers; `self.delta` stores the `timedelta`, here its
size in minutes. -/
structure DX where
  api_key : String
  feed_id : String
  version : Int
  url : String
  header : Header
  delta : Int
  post_stream_id : Option Json
  data : Option Json
  ingest_url : Option String
  time_now : Option String
  json : Option Json
  get_stream_id : Option String
  agregate : Option Bool
  get_url : Option String
  deriving DecidableEq

/-- `DX.__init__(api_key, feed_id, version=1, delta=None)`.
`version` is `some v` for an explicit argument, `none` for Python `None`;
an omitted argument is the default `some 1`. The stored version is
`version if version else 1` (Python truthiness: `0` and `None` are falsy).
`delta` is `some d` for an explicit number of minutes, `none` for the
omitted/`None` default, stored as `timedelta(minutes=d)` or zero. -/
def DX.init (api_key feed_id : String) (version : Option Int) (delta : Option Int) : DX :=
  { api_key := api_key
    feed_id := feed_id
    version := match version with
      | none => 1
      | some v => if v = 0 then 1 else v
    url := "https://api.mkdx.btcsp.co.uk/data-service/sensors/feeds/"
    header :=
      { accept := "application/json"
        x_api_key := api_key
        content_type := "application/json" }
    delta := match delta with
      | none => 0
      | some d => d
    post_stream_id := none
    data := none
    ingest_url := none
    time_now := none
    json := none
    get_stream_id := none
    agregate := none
    get_url := none }

/-- `DX.get_current_time(self)` at wall-clock instant `nowUtc`
(microseconds since epoch):
`(datetime.now(timezone.utc) + self.delta).strftime("%Y-%m-%dT%H:%M:%S.%f")[:-3] + "Z"`. -/
def DX.get_current_time (s : DX) (nowUtc : Nat) : String :=
  let t := ((nowUtc : Int) + s.delta * 60000000).toNat
  let f := strftimeFull t
  String.mk (f.take (f.length - 3) ++ ['Z'])

/-- The observable outcome of one `post` or `get` call: the object state
after the call, the HTTP requests issued during it, the console lines
printed, and the Python return value (`none` is `None`). -/
structure CallResult where
  state : DX
  requests : List HttpRequest
  printed : List String
  ret : Option Json
  deriving DecidableEq

/-- `raise_for_status` raises exactly for 4xx/5xx status codes. -/
def isErrorStatus (status : Nat) : Bool := 400 ≤ status && status < 600

/-- The ingestion URL
`f"https://ing.mkdx.btcsp.co.uk/datahub-adapter/sensors/feeds/{self.feed_id}/{self.version}"`. -/
def DX.ingestUrl (s : DX) : String :=
  "https://ing.mkdx.btcsp.co.uk/datahub-adapter/sensors/feeds/"
    ++ s.feed_id ++ "/" ++ toString s.version

/-- The JSON payload `post` builds:
`{"data": [{"streamId": stream_id, "value": data, "eventTime": time_now}]}`. -/
def postPayload (stream_id data : Json) (time_now : String) : Json :=
  Json.mkObj [("data", Json.mkArr [Json.mkObj
    [("streamId", stream_id), ("value", data), ("eventTime", Json.str time_now)]])]

/-- The soft-fail outcome of `post`/`get` when `self.api_key` is falsy:
print the notice, return `None`, no request. `s1` is the object state at
that point (the per-call argument was already stored on `self`). -/
def softFailResult (s1 : DX) : CallResult :=
  { state := s1, requests := [], printed := ["Please enter your API key."], ret := none }

/-- The POST request `post` hands to `requests.post`: ingestion URL, the
precomputed header, and the batch-shaped single-point payload. (It reads
only configuration fields, which no call mutates.) -/
def DX.postReq (s : DX) (stream_id data : Json) (nowUtc : Nat) : HttpRequest :=
  { method := HttpMethod.post
    url := s.ingestUrl
    header := s.header
    body := some (postPayload stream_id data (s.get_current_time nowUtc)) }

/-- The `try`/`except` tail of `post`: return the decoded body on success,
print the exception and return `None` on a network error or after
`raise_for_status` raises on a 4xx/5xx status. -/
def postResponsePhase (s2 : DX) (req : HttpRequest) :
    Except String (Nat × Json) → CallResult
  | Except.error e =>
      { state := s2, requests := [req]
        printed := ["An error occurred: " ++ e], ret := none }
  | Except.ok (status, body) =>
      if isErrorStatus status then
        { state := s2, requests := [req]
          printed := ["An error occurred: " ++ httpStatusErrDesc status req.url]
          ret := none }
      else
        { state := s2, requests := [req], printed := [], ret := some body }

/-- `DX.post(self, stream_id, data)` at wall-clock instant `nowUtc`, with
the HTTP library `tr`. Mirrors the source line by line: store
`self.post_stream_id`/`self.data`; soft-fail on an empty key; build
`self.ingest_url`, `self.time_now`, `self.json`; issue the POST; handle
the response. (Config reads go through `s`; per-call assignments never
touch configuration, so this equals reading them from the mutated state.) -/
def DX.post (s : DX) (tr : Transport) (stream_id data : Json) (nowUtc : Nat) : CallResult :=
  if s.api_key = "" then
    softFailResult { s with post_stream_id := some stream_id, data := some data }
  else
    postResponsePhase
      { s with
        post_stream_id := some stream_id
        data := some data
        ingest_url := some s.ingestUrl
        time_now := some (s.get_current_time nowUtc)
        json := some (postPayload stream_id data (s.get_current_time nowUtc)) }
      (s.postReq stream_id data nowUtc)
      (tr (s.postReq stream_id data nowUtc))

/-- The query URL
`f"https://api.mkdx.btcsp.co.uk/data-service/sensors/feeds/{self.feed_id}/{self.version}/datastream/{self.get_stream_id}"`,
with `"/datapoints?limit=100"` appended when `self.agregate` is truthy. -/
def DX.queryUrl (s : DX) (stream_id : String) (agregate : Bool) : String :=
  let base := "https://api.mkdx.btcsp.co.uk/data-service/sensors/feeds/"
    ++ s.feed_id ++ "/" ++ toString s.version ++ "/datastream/" ++ stream_id
  if agregate then base ++ "/datapoints?limit=100" else base

/-- The GET request `get` hands to `requests.get`: the selected endpoint,
the precomputed header, no body. `agregate` is the raw optional argument;
`None` defaults to `False` as in the source. -/
def DX.getReq (s : DX) (stream_id : String) (agregate : Option Bool) : HttpRequest :=
  { method := HttpMethod.get
    url := s.queryUrl stream_id (agregate.getD false)
    header := s.header
    body := none }

/-- The `try`/`except` tail of `get`: on success, `display_data` the
decoded body when `display` is true and return the body; on a network
error or 4xx/5xx status, print the exception and return `None`. -/
def getResponsePhase (s3 : DX) (req : HttpRequest) (display : Bool) :
    Except String (Nat × Json) → CallResult
  | Except.error e =>
      { state := s3, requests := [req]
        printed := ["An error occurred: " ++ e], ret := none }
  | Except.ok (status, body) =>
      if isErrorStatus status then
        { state := s3, requests := [req]
          printed := ["An error occurred: " ++ httpStatusErrDesc status req.url]
          ret := none }
      else
        { state := s3, requests := [req]
          printed := if display then display_data body else []
          ret := some body }

/-- `DX.get(self, stream_id, display=False, agregate=None)` with the HTTP
library `tr`. Mirrors the source: store `self.get_stream_id`; soft-fail on
an empty key; store `self.agregate` (`None` defaults to `False`) and
`self.get_url`; issue the GET; handle the response. -/
def DX.get (s : DX) (tr : Transport) (stream_id : String) (display : Bool)
    (agregate : Option Bool) : CallResult :=
  if s.api_key = "" then
    softFailResult { s with get_stream_id := some stream_id }
  else
    getResponsePhase
      { s with
        get_stream_id := some stream_id
        agregate := some (agregate.getD false)
        get_url := some (s.queryUrl stream_id (agregate.getD false)) }
      (s.getReq stream_id agregate) display (tr (s.getReq stream_id agregate))

/-- The timestamp format the spec prescribes for `current_timestamp()`,
written from its words: the instant `t`, `formatted as
YYYY-MM-DDTHH:MM:SS.mmmZ (exactly three fractional-second digits,
trailing literal Z)`, millisecond precision. Stated independently of
`strftimeFull`, for comparison with the source's slice-based formatting. -/
def specTimestampFormat (t : Nat) : String :=
  String.mk (pad4 (yearOf t) ++ ['-'] ++ pad2 (monthOf t) ++ ['-'] ++ pad2 (dayOf t)
    ++ ['T'] ++ pad2 (hourOf t) ++ [':'] ++ pad2 (minuteOf t)
    ++ [':'] ++ pad2 (secondOf t) ++ ['.'] ++ pad3 (microOf t / 1000) ++ ['Z'])

/-! ## Helper lemmas -/

theorem strftimeHead_length (t : Nat) : (strftimeHead t).length = 20 := by
  simp [strftimeHead, pad4, pad2]

theorem pad6_length (n : Nat) : (pad6 n).length = 6 := by
  simp [pad6]

theorem pad6_take_three (n : Nat) : (pad6 n).take 3 = pad3 (n / 1000) := by
  simp [pad6, pad3, Nat.div_div_eq_div_mul]

theorem postResponsePhase_requests (s2 : DX) (req : HttpRequest)
    (r : Except String (Nat × Json)) : (postResponsePhase s2 req r).requests = [req] := by
  rcases r with e | ⟨status, body⟩
  · rfl
  · simp only [postResponsePhase]
    split <;> rfl

theorem getResponsePhase_requests (s3 : DX) (req : HttpRequest) (display : Bool)
    (r : Except String (Nat × Json)) :
    (getResponsePhase s3 req display r).requests = [req] := by
  rcases r with e | ⟨status, body⟩
  · rfl
  · simp only [getResponsePhase]
    split <;> rfl

theorem postResponsePhase_state (s2 : DX) (req : HttpRequest)
    (r : Except String (Nat × Json)) : (postResponsePhase s2 req r).state = s2 := by
  rcases r with e | ⟨status, body⟩
  · rfl
  · simp only [postResponsePhase]
    split <;> rfl

theorem getResponsePhase_state (s3 : DX) (req : HttpRequest) (display : Bool)
    (r : Except String (Nat × Json)) : (getResponsePhase s3 req display r).state = s3 := by
  rcases r with e | ⟨status, body⟩
  · rfl
  · simp only [getResponsePhase]
    split <;> rfl

/-! ## Claims -/

/-- **C5**: for every delta `d` (in minutes) and every wall-clock UTC
instant, `get_current_time` returns that instant shifted by `d` minutes
(here `u`, the shifted instant), formatted as `YYYY-MM-DDTHH:MM:SS.mmmZ`
with exactly three fractional-second digits and a trailing literal `Z`
(the format `specTimestampFormat` prescribes). -/
theorem get_current_time_matches_spec_format (s : DX) (nowUtc u : Nat)
    (hu : (u : Int) = (nowUtc : Int) + s.delta * 60000000) :
    s.get_current_time nowUtc = specTimestampFormat u := by
  unfold DX.get_current_time specTimestampFormat
  rw [← hu, Int.toNat_natCast]
  dsimp only
  have hlen : (strftimeFull u).length - 3 = 20 + 3 := by
    simp [strftimeFull, List.length_append, strftimeHead_length, pad6_length]
  rw [hlen]
  unfold strftimeFull
  rw [List.take_append_eq_append_take, strftimeHead_length]
  have h20 : (strftimeHead u).take (20 + 3) = strftimeHead u :=
    List.take_of_length_le (by rw [strftimeHead_length]; omega)
  rw [h20]
  norm_num
  rw [pad6_take_three]
  unfold strftimeHead
  simp [List.append_assoc]

/-- **C5 witness**: at delta `0` and instant `0` the helper yields
`1970-01-01T00:00:00.000Z`, the spec format of the unshifted instant. -/
theorem get_current_time_matches_spec_format_witness :
    (((0 : Nat) : Int) = ((0 : Nat) : Int) + (DX.init "k" "f" (some 1) none).delta * 60000000)
    ∧ (DX.init "k" "f" (some 1) none).get_current_time 0 = specTimestampFormat 0 :=
  ⟨by decide, get_current_time_matches_spec_format (DX.init "k" "f" (some 1) none) 0 0 (by decide)⟩

/-- **C6**: construction defaults — `version=None`, `version=0` and the
omitted default (`1`) all store version `1`; any nonzero (truthy) version
is stored unchanged; an omitted/`None` delta stores a zero clock offset. -/
theorem init_defaults (api_key feed_id : String) (vOpt dOpt : Option Int) (v : Int) :
    (DX.init api_key feed_id none dOpt).version = 1 ∧
    (DX.init api_key feed_id (some 0) dOpt).version = 1 ∧
    (DX.init api_key feed_id (some 1) dOpt).version = 1 ∧
    (v ≠ 0 → (DX.init api_key feed_id (some v) dOpt).version = v) ∧
    (DX.init api_key feed_id vOpt none).delta = 0 := by
  refine ⟨rfl, rfl, rfl, fun hv => ?_, rfl⟩
  unfold DX.init
  simp [hv]

/-- **C6 witness**: concrete defaults at `version=None`, `0`, omitted,
`7`, and `delta` omitted. -/
theorem init_defaults_witness :
    (DX.init "k" "f" none none).version = 1 ∧
    (DX.init "k" "f" (some 0) none).version = 1 ∧
    (DX.init "k" "f" (some 1) none).version = 1 ∧
    ((7 : Int) ≠ 0 → (DX.init "k" "f" (some 7) none).version = 7) ∧
    (DX.init "k" "f" (some 7) none).delta = 0 :=
  init_defaults "k" "f" (some 7) none 7

/-- **C3**: with an empty (falsy) `api_key` at call time, both `post` and
`get` print the fixed notice `Please enter your API key.`, return `None`,
and issue no HTTP request at all. -/
theorem empty_api_key_soft_fail (s : DX) (tr tr2 : Transport)
    (stream_id data : Json) (nowUtc : Nat) (gsid : String) (display : Bool)
    (agregate : Option Bool) (h : s.api_key = "") :
    ((DX.post s tr stream_id data nowUtc).printed = ["Please enter your API key."] ∧
     (DX.post s tr stream_id data nowUtc).ret = none ∧
     (DX.post s tr stream_id data nowUtc).requests = []) ∧
    ((DX.get s tr2 gsid display agregate).printed = ["Please enter your API key."] ∧
     (DX.get s tr2 gsid display agregate).ret = none ∧
     (DX.get s tr2 gsid display agregate).requests = []) := by
  unfold DX.post DX.get
  rw [if_pos h, if_pos h]
  exact ⟨⟨rfl, rfl, rfl⟩, rfl, rfl, rfl⟩

/-- **C3 witness**: a client built with `api_key=""` soft-fails on both
calls; the transports would answer but are never consulted. -/
theorem empty_api_key_soft_fail_witness :
    ((DX.post (DX.init "" "f" (some 1) none) (fun _ => Except.ok (200, Json.null))
        (Json.str "100") (Json.str "AQI: 2") 0).printed = ["Please enter your API key."] ∧
     (DX.post (DX.init "" "f" (some 1) none) (fun _ => Except.ok (200, Json.null))
        (Json.str "100") (Json.str "AQI: 2") 0).ret = none ∧
     (DX.post (DX.init "" "f" (some 1) none) (fun _ => Except.ok (200, Json.null))
        (Json.str "100") (Json.str "AQI: 2") 0).requests = []) ∧
    ((DX.get (DX.init "" "f" (some 1) none) (fun _ => Except.ok (200, Json.null))
        "100" false none).printed = ["Please enter your API key."] ∧
     (DX.get (DX.init "" "f" (some 1) none) (fun _ => Except.ok (200, Json.null))
        "100" false none).ret = none ∧
     (DX.get (DX.init "" "f" (some 1) none) (fun _ => Except.ok (200, Json.null))
        "100" false none).requests = []) :=
  empty_api_key_soft_fail (DX.init "" "f" (some 1) none)
    (fun _ => Except.ok (200, Json.null)) (fun _ => Except.ok (200, Json.null))
    (Json.str "100") (Json.str "AQI: 2") 0 "100" false none rfl

/-- **C10**: the soft-fail is not atomic with respect to instance state —
with an empty `api_key`, `post` still stores `stream_id` and `data` as
per-call fields on the instance before returning `None`, and `get` still
stores `stream_id`, even though no request is made. -/
theorem soft_fail_still_mutates_instance (s : DX) (tr tr2 : Transport)
    (stream_id data : Json) (nowUtc : Nat) (gsid : String) (display : Bool)
    (agregate : Option Bool) (h : s.api_key = "") :
    ((DX.post s tr stream_id data nowUtc).state.post_stream_id = some stream_id ∧
     (DX.post s tr stream_id data nowUtc).state.data = some data ∧
     (DX.post s tr stream_id data nowUtc).requests = [] ∧
     (DX.post s tr stream_id data nowUtc).ret = none) ∧
    ((DX.get s tr2 gsid display agregate).state.get_stream_id = some gsid ∧
     (DX.get s tr2 gsid display agregate).requests = [] ∧
     (DX.get s tr2 gsid display agregate).ret = none) := by
  unfold DX.post DX.get
  rw [if_pos h, if_pos h]
  exact ⟨⟨rfl, rfl, rfl, rfl⟩, rfl, rfl, rfl⟩

/-- **C10 witness**: a client with `api_key=""` ends the failed `post`
with `post_stream_id`/`data` set and the failed `get` with
`get_stream_id` set. -/
theorem soft_fail_still_mutates_instance_witness :
    ((DX.post (DX.init "" "f" (some 1) none) (fun _ => Except.error "down")
        (Json.str "100") (Json.str "AQI: 2") 0).state.post_stream_id
          = some (Json.str "100") ∧
     (DX.post (DX.init "" "f" (some 1) none) (fun _ => Except.error "down")
        (Json.str "100") (Json.str "AQI: 2") 0).state.data = some (Json.str "AQI: 2") ∧
     (DX.post (DX.init "" "f" (some 1) none) (fun _ => Except.error "down")
        (Json.str "100") (Json.str "AQI: 2") 0).requests = [] ∧
     (DX.post (DX.init "" "f" (some 1) none) (fun _ => Except.error "down")
        (Json.str "100") (Json.str "AQI: 2") 0).ret = none) ∧
    ((DX.get (DX.init "" "f" (some 1) none) (fun _ => Except.error "down")
        "100" false none).state.get_stream_id = some "100" ∧
     (DX.get (DX.init "" "f" (some 1) none) (fun _ => Except.error "down")
        "100" false none).requests = [] ∧
     (DX.get (DX.init "" "f" (some 1) none) (fun _ => Except.error "down")
        "100" false none).ret = none) :=
  soft_fail_still_mutates_instance (DX.init "" "f" (some 1) none)
    (fun _ => Except.error "down") (fun _ => Except.error "down")
    (Json.str "100") (Json.str "AQI: 2") 0 "100" false none rfl

/-- **C1**: a client constructed with a non-empty `api_key`, a `feed_id`
and a `version` issues, on `post(stream_id, data)`, exactly one HTTP POST
to `https://ing.mkdx.btcsp.co.uk/datahub-adapter/sensors/feeds/{feed_id}/{version}`
with the single-element batch body
`{"data": [{"streamId": stream_id, "value": data, "eventTime": t}]}`,
`t` being the time-formatting helper's value at call time, and with the
precomputed header
`{accept: application/json, x-api-key: api_key, Content-Type: application/json}`. -/
theorem post_issues_single_ingestion_request (api_key feed_id : String)
    (version delta : Option Int) (tr : Transport) (stream_id data : Json)
    (nowUtc : Nat) (h : api_key ≠ "") :
    (DX.post (DX.init api_key feed_id version delta) tr stream_id data nowUtc).requests
      = [{ method := HttpMethod.post
           url := "https://ing.mkdx.btcsp.co.uk/datahub-adapter/sensors/feeds/"
             ++ feed_id ++ "/" ++ toString (DX.init api_key feed_id version delta).version
           header := { accept := "application/json", x_api_key := api_key
                       content_type := "application/json" }
           body := some (Json.mkObj [("data", Json.mkArr [Json.mkObj
             [("streamId", stream_id), ("value", data),
              ("eventTime", Json.str ((DX.init api_key feed_id version delta).get_current_time
                nowUtc))]])]) }] := by
  unfold DX.post
  have h2 : ¬ (DX.init api_key feed_id version delta).api_key = "" := h
  rw [if_neg h2, postResponsePhase_requests]
  rfl

/-- **C1 witness**: a concrete client (`api_key="k"`, `feed_id="f"`,
`version=2`) posting `"AQI: 2"` to stream `"100"` at the epoch instant. -/
theorem post_issues_single_ingestion_request_witness :
    ("k" : String) ≠ "" ∧
    (DX.post (DX.init "k" "f" (some 2) none) (fun _ => Except.ok (200, Json.null))
        (Json.str "100") (Json.str "AQI: 2") 0).requests
      = [{ method := HttpMethod.post
           url := "https://ing.mkdx.btcsp.co.uk/datahub-adapter/sensors/feeds/"
             ++ "f" ++ "/" ++ toString (DX.init "k" "f" (some 2) none).version
           header := { accept := "application/json", x_api_key := "k"
                       content_type := "application/json" }
           body := some (Json.mkObj [("data", Json.mkArr [Json.mkObj
             [("streamId", Json.str "100"), ("value", Json.str "AQI: 2"),
              ("eventTime", Json.str ((DX.init "k" "f" (some 2) none).get_current_time
                0))]])]) }] :=
  ⟨by decide, post_issues_single_ingestion_request "k" "f" (some 2) none
    (fun _ => Except.ok (200, Json.null)) (Json.str "100") (Json.str "AQI: 2") 0
    (by decide)⟩

/-- **C2**: with a non-empty `api_key`, `get` issues exactly one GET whose
URL is selected by the `agregate` flag: `some true` targets
`.../datastream/{stream_id}/datapoints?limit=100`, `some false` or absent
(`none`, which defaults to false) targets `.../datastream/{stream_id}`. -/
theorem get_targets_url_by_aggregate_flag (s : DX) (tr : Transport)
    (stream_id : String) (display : Bool) (agregate : Option Bool)
    (h : s.api_key ≠ "") :
    (agregate = some true →
      (DX.get s tr stream_id display agregate).requests
        = [{ method := HttpMethod.get
             url := "https://api.mkdx.btcsp.co.uk/data-service/sensors/feeds/" ++ s.feed_id
               ++ "/" ++ toString s.version ++ "/datastream/" ++ stream_id
               ++ "/datapoints?limit=100"
             header := s.header, body := none }]) ∧
    (agregate = some false ∨ agregate = none →
      (DX.get s tr stream_id display agregate).requests
        = [{ method := HttpMethod.get
             url := "https://api.mkdx.btcsp.co.uk/data-service/sensors/feeds/" ++ s.feed_id
               ++ "/" ++ toString s.version ++ "/datastream/" ++ stream_id
             header := s.header, body := none }]) := by
  constructor
  · intro ha
    subst ha
    unfold DX.get
    rw [if_neg h, getResponsePhase_requests]
    rfl
  · intro ha
    rcases ha with ha | ha <;> subst ha <;>
      (unfold DX.get; rw [if_neg h, getResponsePhase_requests]; rfl)

/-- **C2 witness**: a concrete client targets the aggregate URL for
`agregate=True` and the plain datastream URL for the absent default. -/
theorem get_targets_url_by_aggregate_flag_witness :
    (("k" : String) ≠ "") ∧
    ((some true = some true →
      (DX.get (DX.init "k" "f" (some 1) none) (fun _ => Except.ok (200, Json.null))
          "100" false (some true)).requests
        = [{ method := HttpMethod.get
             url := "https://api.mkdx.btcsp.co.uk/data-service/sensors/feeds/"
               ++ (DX.init "k" "f" (some 1) none).feed_id
               ++ "/" ++ toString (DX.init "k" "f" (some 1) none).version
               ++ "/datastream/" ++ "100" ++ "/datapoints?limit=100"
             header := (DX.init "k" "f" (some 1) none).header, body := none }]) ∧
     (some true = some false ∨ (some true : Option Bool) = none →
      (DX.get (DX.init "k" "f" (some 1) none) (fun _ => Except.ok (200, Json.null))
          "100" false (some true)).requests
        = [{ method := HttpMethod.get
             url := "https://api.mkdx.btcsp.co.uk/data-service/sensors/feeds/"
               ++ (DX.init "k" "f" (some 1) none).feed_id
               ++ "/" ++ toString (DX.init "k" "f" (some 1) none).version
               ++ "/datastream/" ++ "100"
             header := (DX.init "k" "f" (some 1) none).header, body := none }])) ∧
    ((none = some true →
      (DX.get (DX.init "k" "f" (some 1) none) (fun _ => Except.ok (200, Json.null))
          "100" false none).requests
        = [{ method := HttpMethod.get
             url := "https://api.mkdx.btcsp.co.uk/data-service/sensors/feeds/"
               ++ (DX.init "k" "f" (some 1) none).feed_id
               ++ "/" ++ toString (DX.init "k" "f" (some 1) none).version
               ++ "/datastream/" ++ "100" ++ "/datapoints?limit=100"
             header := (DX.init "k" "f" (some 1) none).header, body := none }]) ∧
     ((none : Option Bool) = some false ∨ (none : Option Bool) = none →
      (DX.get (DX.init "k" "f" (some 1) none) (fun _ => Except.ok (200, Json.null))
          "100" false none).requests
        = [{ method := HttpMethod.get
             url := "https://api.mkdx.btcsp.co.uk/data-service/sensors/feeds/"
               ++ (DX.init "k" "f" (some 1) none).feed_id
               ++ "/" ++ toString (DX.init "k" "f" (some 1) none).version
               ++ "/datastream/" ++ "100"
             header := (DX.init "k" "f" (some 1) none).header, body := none }])) :=
  ⟨by decide,
   get_targets_url_by_aggregate_flag (DX.init "k" "f" (some 1) none)
     (fun _ => Except.ok (200, Json.null)) "100" false (some true) (by decide),
   get_targets_url_by_aggregate_flag (DX.init "k" "f" (some 1) none)
     (fun _ => Except.ok (200, Json.null)) "100" false none (by decide)⟩

/-- **C4**: on a network-level failure or a 4xx/5xx response, both `post`
and `get` catch the failure, print one diagnostic carrying a short inline
description, and return `None` — the treatment is identical for both
methods and both failure kinds (the embedding is total, so no exception
escapes the call). -/
theorem request_failures_handled_uniformly (s : DX) (tr tr2 : Transport)
    (stream_id data : Json) (nowUtc : Nat) (gsid : String) (display : Bool)
    (agregate : Option Bool) (h : s.api_key ≠ "") :
    (∀ e, tr (s.postReq stream_id data nowUtc) = Except.error e →
      (DX.post s tr stream_id data nowUtc).ret = none ∧
      (DX.post s tr stream_id data nowUtc).printed = ["An error occurred: " ++ e]) ∧
    (∀ status body, tr (s.postReq stream_id data nowUtc) = Except.ok (status, body) →
      isErrorStatus status = true →
      (DX.post s tr stream_id data nowUtc).ret = none ∧
      (DX.post s tr stream_id data nowUtc).printed
        = ["An error occurred: " ++ httpStatusErrDesc status s.ingestUrl]) ∧
    (∀ e, tr2 (s.getReq gsid agregate) = Except.error e →
      (DX.get s tr2 gsid display agregate).ret = none ∧
      (DX.get s tr2 gsid display agregate).printed = ["An error occurred: " ++ e]) ∧
    (∀ status body, tr2 (s.getReq gsid agregate) = Except.ok (status, body) →
      isErrorStatus status = true →
      (DX.get s tr2 gsid display agregate).ret = none ∧
      (DX.get s tr2 gsid display agregate).printed
        = ["An error occurred: "
            ++ httpStatusErrDesc status (s.queryUrl gsid (agregate.getD false))]) := by
  unfold DX.post DX.get
  rw [if_neg h, if_neg h]
  refine ⟨fun e he => ?_, fun status body hb hs => ?_, fun e he => ?_,
    fun status body hb hs => ?_⟩
  · rw [he]
    exact ⟨rfl, rfl⟩
  · rw [hb]
    simp only [postResponsePhase]
    rw [if_pos hs]
    exact ⟨rfl, rfl⟩
  · rw [he]
    exact ⟨rfl, rfl⟩
  · rw [hb]
    simp only [getResponsePhase]
    rw [if_pos hs]
    exact ⟨rfl, rfl⟩

/-- **C4 witness**: a concrete client whose `post` transport raises a
network error and whose `get` transport answers HTTP 500; both calls
return `None` with one diagnostic line. -/
theorem request_failures_handled_uniformly_witness :
    (("k" : String) ≠ "") ∧
    ((DX.post (DX.init "k" "f" (some 1) none) (fun _ => Except.error "timeout")
        (Json.str "100") (Json.str "AQI: 2") 0).ret = none ∧
     (DX.post (DX.init "k" "f" (some 1) none) (fun _ => Except.error "timeout")
        (Json.str "100") (Json.str "AQI: 2") 0).printed
       = ["An error occurred: " ++ "timeout"]) ∧
    ((DX.get (DX.init "k" "f" (some 1) none) (fun _ => Except.ok (500, Json.null))
        "100" false none).ret = none ∧
     (DX.get (DX.init "k" "f" (some 1) none) (fun _ => Except.ok (500, Json.null))
        "100" false none).printed
       = ["An error occurred: "
           ++ httpStatusErrDesc 500
             ((DX.init "k" "f" (some 1) none).queryUrl "100" ((none : Option Bool).getD false))]) :=
  ⟨by decide,
   (request_failures_handled_uniformly (DX.init "k" "f" (some 1) none)
     (fun _ => Except.error "timeout") (fun _ => Except.ok (500, Json.null))
     (Json.str "100") (Json.str "AQI: 2") 0 "100" false none (by decide)).1
     "timeout" rfl,
   (request_failures_handled_uniformly (DX.init "k" "f" (some 1) none)
     (fun _ => Except.error "timeout") (fun _ => Except.ok (500, Json.null))
     (Json.str "100") (Json.str "AQI: 2") 0 "100" false none (by decide)).2.2.2
     500 Json.null rfl (by decide)⟩

/-- **C9**: on every path of `post` and `get` (soft-fail, failure or
success) the configuration — `api_key`, `feed_id`, `version`, `delta`
and the precomputed header — is unchanged by the call. -/
theorem calls_preserve_configuration (s : DX) (tr tr2 : Transport)
    (stream_id data : Json) (nowUtc : Nat) (gsid : String) (display : Bool)
    (agregate : Option Bool) :
    ((DX.post s tr stream_id data nowUtc).state.api_key = s.api_key ∧
     (DX.post s tr stream_id data nowUtc).state.feed_id = s.feed_id ∧
     (DX.post s tr stream_id data nowUtc).state.version = s.version ∧
     (DX.post s tr stream_id data nowUtc).state.delta = s.delta ∧
     (DX.post s tr stream_id data nowUtc).state.header = s.header) ∧
    ((DX.get s tr2 gsid display agregate).state.api_key = s.api_key ∧
     (DX.get s tr2 gsid display agregate).state.feed_id = s.feed_id ∧
     (DX.get s tr2 gsid display agregate).state.version = s.version ∧
     (DX.get s tr2 gsid display agregate).state.delta = s.delta ∧
     (DX.get s tr2 gsid display agregate).state.header = s.header) := by
  unfold DX.post DX.get
  by_cases hk : s.api_key = ""
  · rw [if_pos hk, if_pos hk]
    exact ⟨⟨rfl, rfl, rfl, rfl, rfl⟩, rfl, rfl, rfl, rfl, rfl⟩
  · rw [if_neg hk, if_neg hk, postResponsePhase_state, getResponsePhase_state]
    exact ⟨⟨rfl, rfl, rfl, rfl, rfl⟩, rfl, rfl, rfl, rfl, rfl⟩

/-- **C7 counterexample**: the claim fails as stated. A successful `get`
with `display=True` whose decoded body is the empty object `{}` prints the
`No data to display.` notice, **not** the pretty-printed (indented)
decoded response (`json.dumps({}, indent=4)` would be `"{}"`), because
`display_data` branches on truthiness first. The decoded body is still
returned. -/
theorem get_display_empty_body_counterexample :
    (DX.get (DX.init "k" "f" (some 1) none) (fun _ => Except.ok (200, Json.mkObj []))
        "100" true none).ret = some (Json.mkObj []) ∧
    (DX.get (DX.init "k" "f" (some 1) none) (fun _ => Except.ok (200, Json.mkObj []))
        "100" true none).printed = ["No data to display."] ∧
    (DX.get (DX.init "k" "f" (some 1) none) (fun _ => Except.ok (200, Json.mkObj []))
        "100" true none).printed ≠ [pyJsonDumps4 (Json.mkObj [])] :=
  ⟨by decide, by decide, by decide⟩

/-- **C7 (amended)**: for every successful `get` (non-error status,
decodable body), the call returns the decoded body whatever `display` is;
with `display=true` the decoded body is pretty-printed (indented) when it
is non-empty (truthy), while an empty/absent decoded body prints the
`No data to display.` notice instead; with `display=false` nothing is
printed. -/
theorem get_success_returns_body_and_displays (s : DX) (tr : Transport)
    (stream_id : String) (display : Bool) (agregate : Option Bool)
    (status : Nat) (body : Json) (h : s.api_key ≠ "")
    (hr : tr (s.getReq stream_id agregate) = Except.ok (status, body))
    (hs : isErrorStatus status = false) :
    (DX.get s tr stream_id display agregate).ret = some body ∧
    (DX.get s tr stream_id display agregate).printed
      = (if display then display_data body else []) ∧
    (display = true → pyTruthy body = true →
      (DX.get s tr stream_id display agregate).printed = [pyJsonDumps4 body]) ∧
    (display = true → pyTruthy body = false →
      (DX.get s tr stream_id display agregate).printed = ["No data to display."]) ∧
    (display = false → (DX.get s tr stream_id display agregate).printed = []) := by
  unfold DX.get
  rw [if_neg h, hr]
  simp only [getResponsePhase, hs, Bool.false_eq_true, if_false]
  refine ⟨by trivial, by trivial, fun hd hb => ?_, fun hd hb => ?_, fun hd => ?_⟩
  · subst hd
    simp [display_data, hb]
  · subst hd
    simp [display_data, hb]
  · subst hd
    simp

/-- **C7 witness**: a successful `get` with `display=True` and the truthy
body `{"a": 1}` returns it and pretty-prints it. -/
theorem get_success_returns_body_and_displays_witness :
    (("k" : String) ≠ "") ∧
    ((DX.get (DX.init "k" "f" (some 1) none)
        (fun _ => Except.ok (200, Json.mkObj [("a", Json.num 1)])) "100" true none).ret
       = some (Json.mkObj [("a", Json.num 1)]) ∧
     (DX.get (DX.init "k" "f" (some 1) none)
        (fun _ => Except.ok (200, Json.mkObj [("a", Json.num 1)])) "100" true none).printed
       = (if true then display_data (Json.mkObj [("a", Json.num 1)]) else []) ∧
     (true = true → pyTruthy (Json.mkObj [("a", Json.num 1)]) = true →
      (DX.get (DX.init "k" "f" (some 1) none)
        (fun _ => Except.ok (200, Json.mkObj [("a", Json.num 1)])) "100" true none).printed
        = [pyJsonDumps4 (Json.mkObj [("a", Json.num 1)])]) ∧
     (true = true → pyTruthy (Json.mkObj [("a", Json.num 1)]) = false →
      (DX.get (DX.init "k" "f" (some 1) none)
        (fun _ => Except.ok (200, Json.mkObj [("a", Json.num 1)])) "100" true none).printed
        = ["No data to display."]) ∧
     (true = false →
      (DX.get (DX.init "k" "f" (some 1) none)
        (fun _ => Except.ok (200, Json.mkObj [("a", Json.num 1)])) "100" true none).printed
        = [])) :=
  ⟨by decide,
   get_success_returns_body_and_displays (DX.init "k" "f" (some 1) none)
     (fun _ => Except.ok (200, Json.mkObj [("a", Json.num 1)])) "100" true none
     200 (Json.mkObj [("a", Json.num 1)]) (by decide) rfl (by decide)⟩

/-- **C8**: `display_data` prints the literal `No data to display.` notice
exactly when the input is empty/absent (Python-falsy, e.g. `{}` or
`None`), and otherwise prints the input as indented JSON
(`json.dumps(·, indent=4)`); its only effect is that console line. -/
theorem display_data_prints_notice_or_indented_json :
    (∀ d : Json, pyTruthy d = false → display_data d = ["No data to display."]) ∧
    (∀ d : Json, pyTruthy d = true → display_data d = [pyJsonDumps4 d]) ∧
    display_data (Json.mkObj []) = ["No data to display."] ∧
    display_data Json.null = ["No data to display."] ∧
    display_data (Json.mkObj [("a", Json.num 1)]) = ["\x7b\n    \"a\": 1\n\x7d"] := by
  refine ⟨fun d hd => ?_, fun d hd => ?_, by decide, by decide, by decide⟩
  · simp [display_data, hd]
  · simp [display_data, hd]

/-- **C8 witness**: the falsy input `False` prints the notice. -/
theorem display_data_prints_notice_or_indented_json_witness :
    pyTruthy (Json.bool false) = false ∧
    display_data (Json.bool false) = ["No data to display."] :=
  ⟨by decide,
   display_data_prints_notice_or_indented_json.1 (Json.bool false) (by decide)⟩
